import Mathlib

/-!
Verification development for the EV charging station recommender
(backend/ml: dataCollector.py, trainModel.py, recommend.py, modelTest.py,
api.py).  The Python code is shallowly embedded: pandas/NumPy float columns
are modelled by the type `PVal` (a rational number, NaN, or a signed
infinity), the global NumPy random generator by an explicit `RngState`
carrying the seeded stream, and the learned regressor / fitted scaler of the
model artifact by opaque function fields of `ModelPackage` (their internals
are external to the repository; every claim below is independent of them).
-/

namespace EVRec

/-- A pandas/NumPy float cell: a finite rational, NaN, or a signed infinity.
Finite values are exact rationals; the claims checked here do not depend on
binary rounding of IEEE doubles. -/
inductive PVal where
  | num : ℚ → PVal
  | nan : PVal
  | pinf : PVal
  | ninf : PVal
deriving DecidableEq, Repr

/-- True exactly on finite cells. -/
def PVal.isFinite : PVal → Bool
  | .num _ => true
  | _ => false

/-- IEEE-style division as pandas performs it columnwise: x/0 is NaN when
x = 0 and a signed infinity otherwise; NaN propagates. -/
def pdiv : PVal → PVal → PVal
  | .nan, _ => .nan
  | _, .nan => .nan
  | .num a, .num b =>
      if b = 0 then (if a = 0 then .nan else if 0 < a then .pinf else .ninf)
      else .num (a / b)
  | .num _, .pinf => .num 0
  | .num _, .ninf => .num 0
  | .pinf, .num b => if b < 0 then .ninf else .pinf
  | .ninf, .num b => if b < 0 then .pinf else .ninf
  | .pinf, .pinf => .nan
  | .pinf, .ninf => .nan
  | .ninf, .pinf => .nan
  | .ninf, .ninf => .nan

/-- IEEE-style multiplication: NaN propagates, infinity times zero is NaN. -/
def pmul : PVal → PVal → PVal
  | .nan, _ => .nan
  | _, .nan => .nan
  | .num a, .num b => .num (a * b)
  | .num a, .pinf => if a = 0 then .nan else if 0 < a then .pinf else .ninf
  | .num a, .ninf => if a = 0 then .nan else if 0 < a then .ninf else .pinf
  | .pinf, .num b => if b = 0 then .nan else if 0 < b then .pinf else .ninf
  | .ninf, .num b => if b = 0 then .nan else if 0 < b then .ninf else .pinf
  | .pinf, .pinf => .pinf
  | .pinf, .ninf => .ninf
  | .ninf, .pinf => .ninf
  | .ninf, .ninf => .pinf

/-- pandas Series.fillna(0): replaces NaN, leaves infinities alone. -/
def fillna0 : PVal → PVal
  | .nan => .num 0
  | v => v

/-- pandas Series.replace([inf, -inf], 0): replaces infinities, leaves NaN. -/
def replaceInf0 : PVal → PVal
  | .pinf => .num 0
  | .ninf => .num 0
  | v => v

/-- Rounding a rational to `d` decimal places via round-to-nearest.
Python and NumPy break exact ties to even; ties never matter for the
range and granularity properties proved here. -/
def roundTo (d : ℕ) (q : ℚ) : ℚ :=
  (round (q * (10 : ℚ) ^ d) : ℚ) / (10 : ℚ) ^ d

/-- `round(x, 1)` on a float column. -/
def round1 (q : ℚ) : ℚ := roundTo 1 q

/-- `round(x, 2)` on a float column. -/
def round2 (q : ℚ) : ℚ := roundTo 2 q

/-! ## distance_category: the three bucketing functions

Training (trainModel.py, prepare_training_features, lines 81-83):
`pd.cut(data['distance_km'], bins=[0, 5, 15, 30, 100], labels=[0, 1, 2, 3])`
with the default left-open intervals, then `.astype(float)`; values outside
every bin (including 0 itself and anything above 100) become NaN. -/
def trainDistanceCategory (d : ℚ) : PVal :=
  if 0 < d ∧ d ≤ 5 then .num 0
  else if 5 < d ∧ d ≤ 15 then .num 1
  else if 15 < d ∧ d ≤ 30 then .num 2
  else if 30 < d ∧ d ≤ 100 then .num 3
  else .nan

/-- Serving (recommend.py, predict_ratings, line 81):
`pd.cut(features['distance_km'], bins=[0, 5, 15, 100], labels=[1, 2, 3],
include_lowest=True).astype(float)`; the first interval is closed at 0. -/
def serveDistanceCategory (d : ℚ) : PVal :=
  if 0 ≤ d ∧ d ≤ 5 then .num 1
  else if 5 < d ∧ d ≤ 15 then .num 2
  else if 15 < d ∧ d ≤ 100 then .num 3
  else .nan

/-- Single-pair path (trainModel.py, predict_station_rating, line 289):
`1 if distance_km < 5 else (2 if distance_km < 15 else 3)`. -/
def pairDistanceCategory (d : ℚ) : ℚ :=
  if d < 5 then 1 else if d < 15 then 2 else 3

/-! ## Charger speed classification (dataCollector.py, lines 313-323) -/

/-- `superfast` for at least 50 kW, `fast` for at least 22 kW, else `slow`.
Applied after the zero-power default (0 kW is replaced by 7 kW upstream). -/
def chargerCategoryOf (maxPowerKw : ℚ) : String :=
  if 50 ≤ maxPowerKw then "superfast"
  else if 22 ≤ maxPowerKw then "fast"
  else "slow"

/-! ## String containment (Python `in`, and case-insensitive matching) -/

/-- Whether `n` occurs at the head of `h` (character lists). -/
def startsWithChars : List Char → List Char → Bool
  | _, [] => true
  | [], _ :: _ => false
  | h :: hs, n :: ns => h = n && startsWithChars hs ns

/-- Whether `n` occurs anywhere inside `h`: Python `n in h` on strings. -/
def containsChars : List Char → List Char → Bool
  | [], ns => ns.isEmpty
  | h :: hs, ns => startsWithChars (h :: hs) ns || containsChars hs ns

/-- Case-sensitive substring test, Python `needle in hay`. -/
def strContains (hay needle : String) : Bool :=
  containsChars hay.data needle.data

/-- Case-insensitive substring test, pandas `str.contains(..., case=False)`. -/
def strContainsCI (hay needle : String) : Bool :=
  containsChars (hay.data.map Char.toLower) (needle.data.map Char.toLower)

/-! ## The NumPy global random generator

`np.random.seed(s)` resets the process-wide Mersenne Twister; the stream of
draws after a seed call depends only on the seed.  The state is modelled as
the family of per-seed streams (each one a sequence of values in [0,1)),
the current seed and the position reached in its stream.  Code that calls
`np.random.seed(42)` before drawing is embedded as a function that replaces
the incoming seed and position with 42 and 0.  The draws of one batch are
indexed in generation order; the exact interleaving of the underlying
Mersenne Twister words across vectorized calls is abstracted into the
stream index. -/
structure RngState where
  mt : ℕ → ℕ → ℚ
  seed : ℕ
  pos : ℕ

/-- `np.random.seed(s)`: keep the generator family, reset seed and position. -/
def npSeed (s : ℕ) (st : RngState) : RngState :=
  { st with seed := s, pos := 0 }

/-- `np.random.uniform(a, b)` from the stream value `u` (in [0,1)). -/
def uniformFrom (u a b : ℚ) : ℚ := a + (b - a) * u

/-- `np.random.randint(0, n + 1)` from the stream value `u` (in [0,1)). -/
def randintUpto (u : ℚ) (n : ℕ) : ℕ := (⌊u * (n + 1 : ℚ)⌋).toNat

/-! ## The collector station set and the training-side simulator
(dataCollector.py, _add_simulated_realtime_data, lines 392-427) -/

/-- The columns of a collected station that the simulator reads. -/
structure StationRec where
  station_id : ℕ
  total_connections : ℕ
  charger_category : String
  operatorName : String
deriving DecidableEq, Repr

/-- The simulated per-station columns added by the collector. -/
structure SimFields where
  available_slots : ℕ
  simulated_price_per_kwh : ℚ
  simulated_avg_wait_minutes : ℕ
  reliability_score : ℚ
deriving DecidableEq, Repr

/-- Category-specific price band; unknown categories fall back to (7, 12)
(`base_prices.get(row['charger_category'], (7, 12))`). -/
def priceBand (cat : String) : ℚ × ℚ :=
  if cat = "slow" then (6, 10)
  else if cat = "fast" then (8, 13)
  else if cat = "superfast" then (10, 16)
  else (7, 12)

/-- The allow-list of major operators (case-insensitive substring match). -/
def majorOperators : List String := ["Tata Power", "Ather", "ChargePoint", "BPCL"]

/-- Whether the operator column matches the major-operator allow-list. -/
def isMajorOperator (op : String) : Bool :=
  majorOperators.any (fun m => strContainsCI op m)

/-- One row of the training-side simulation.  `u` is the seeded stream, `n`
the station count, `i` the row index.  Draw indices follow generation order:
slots first (one batch of n), then prices, wait times, and the two
reliability batches that `np.where` evaluates before selecting. -/
def simRows (u : ℕ → ℚ) (n : ℕ) : ℕ → List StationRec → List SimFields
  | _, [] => []
  | i, s :: rest =>
      { available_slots := randintUpto (u i) s.total_connections
        simulated_price_per_kwh :=
          round2 (uniformFrom (u (n + i)) (priceBand s.charger_category).1
            (priceBand s.charger_category).2)
        simulated_avg_wait_minutes := 5 + (⌊u (2 * n + i) * 40⌋).toNat
        reliability_score :=
          round2 (if isMajorOperator s.operatorName
            then uniformFrom (u (3 * n + i)) (85 / 100) (98 / 100)
            else uniformFrom (u (4 * n + i)) (65 / 100) (85 / 100)) }
        :: simRows u n (i + 1) rest

/-- `_add_simulated_realtime_data`: seeds the global generator with 42, then
draws `available_slots` uniformly in [0, total_connections], a price in the
category band rounded to 2 decimals, a wait time in [5, 45), and a
reliability score in [0.85, 0.98] for major operators and [0.65, 0.85]
otherwise, rounded to 2 decimals. -/
def addSimulatedRealtimeData (st : RngState) (stations : List StationRec) :
    List SimFields :=
  let s := npSeed 42 st
  simRows (s.mt s.seed) stations.length 0 stations

/-! ## The serving-side simulation (recommend.py, predict_ratings,
lines 58-60) -/

/-- A candidate station as the serving boundary receives it: field names
`distance`, `total_connections`, `max_power_kw`, `usage_cost`,
`charger_category`.  No operator field crosses this boundary. -/
structure ServeStation where
  distance : ℚ
  total_connections : ℕ
  max_power_kw : ℚ
  usage_cost : ℚ
  charger_category : String
deriving DecidableEq, Repr

/-- One row of the serving-side simulation: slots, then a reliability draw
from the fixed band [0.75, 0.95) applied to every station, not rounded. -/
def serveSimRows (u : ℕ → ℚ) (n : ℕ) : ℕ → List ServeStation → List (ℕ × ℚ)
  | _, [] => []
  | i, s :: rest =>
      (randintUpto (u i) s.total_connections,
        uniformFrom (u (n + i)) (75 / 100) (95 / 100))
        :: serveSimRows u n (i + 1) rest

/-- The simulation block of `predict_ratings`: `np.random.seed(42)`, then
`available_slots` and `reliability_score` columns. -/
def serveSimulate (st : RngState) (stations : List ServeStation) :
    List (ℕ × ℚ) :=
  let s := npSeed 42 st
  serveSimRows (s.mt s.seed) stations.length 0 stations

/-! ## Great-circle distance (dataCollector.py, _calculate_distance,
lines 376-390) -/

/-- Haversine distance in kilometers between two coordinates in degrees,
with Earth radius 6371 km. -/
noncomputable def calcDistance (lat1 lng1 lat2 lng2 : ℝ) : ℝ :=
  2 * Real.arcsin (Real.sqrt
    (Real.sin ((lat2 * Real.pi / 180 - lat1 * Real.pi / 180) / 2) ^ 2 +
      Real.cos (lat1 * Real.pi / 180) * Real.cos (lat2 * Real.pi / 180) *
        Real.sin ((lng2 * Real.pi / 180 - lng1 * Real.pi / 180) / 2) ^ 2)) * 6371

/-! ## Station normalization (dataCollector.py, _process_raw_stations,
lines 282-363) -/

/-- One raw station record from the directory API, reduced to the fields
the normalizer reads.  `connections` holds the optional PowerKW of each
listed connector (`conn.get('PowerKW') or 0` treats a missing value as 0).
The free-text display fields other than the operator name, and the
haversine distance column (modelled separately by `calcDistance`, which is
real-valued), are omitted: no claim depends on them. -/
structure RawStation where
  latitude : Option ℚ
  longitude : Option ℚ
  connections : List (Option ℚ)
  station_id : ℕ
  operatorName : String
  is_operational : Bool
deriving DecidableEq, Repr

/-- Python truthiness of an optional numeric field: `not lat` is true when
the field is absent and also when it is exactly 0. -/
def pyTruthy (v : Option ℚ) : Bool :=
  match v with
  | none => false
  | some q => if q = 0 then false else true

/-- A canonical station as the normalizer emits it. -/
structure Station where
  station_id : ℕ
  latitude : ℚ
  longitude : ℚ
  total_connections : ℕ
  max_power_kw : ℚ
  charger_category : String
  operatorName : String
  is_operational : Bool
deriving DecidableEq, Repr

/-- The per-record transform of `_process_raw_stations`: skip (`continue`)
when `not lat or not lng`; otherwise take `len(connections) if connections
else 1` connections, the maximum reported PowerKW (default 7 when it is 0),
classify the charger speed, and truncate the operator name to 30
characters. -/
def processRawStation (s : RawStation) : Option Station :=
  if pyTruthy s.latitude && pyTruthy s.longitude then
    let totalConnections := if s.connections.isEmpty then 1 else s.connections.length
    let rawMax : ℚ := s.connections.foldl (fun m c => max m (c.getD 0)) 0
    let maxPower := if rawMax = 0 then 7 else rawMax
    some { station_id := s.station_id
           latitude := s.latitude.getD 0
           longitude := s.longitude.getD 0
           total_connections := totalConnections
           max_power_kw := maxPower
           charger_category := chargerCategoryOf maxPower
           operatorName := s.operatorName.take 30
           is_operational := s.is_operational }
  else none

/-! ## Booking simulation (dataCollector.py, _simulate_user_bookings lines
492-549 and _calculate_user_rating lines 586-623) -/

/-- `_calculate_user_rating`: start from 3.0; adjust for distance, slot
availability, price (for price-sensitive users) and operator reputation;
add Gaussian noise (the drawn value is the `noise` argument); clamp to
[1.0, 5.0] and round to 1 decimal. -/
def calculateUserRating (priceSensitive : Bool) (operatorName : String)
    (distance : ℚ) (available_slots : ℕ) (price : ℚ) (noise : ℚ) : ℚ :=
  let r1 : ℚ :=
    if distance < 3 then 3 + 1
    else if distance < 8 then 3 + 1 / 2
    else if 20 < distance then 3 - 7 / 10
    else 3
  let r2 : ℚ :=
    if available_slots = 0 then r1 - 3 / 2
    else if 3 ≤ available_slots then r1 + 3 / 5
    else if available_slots = 1 then r1 - 1 / 5
    else r1
  let r3 : ℚ :=
    if priceSensitive then
      (if price < 8 then r2 + 1 / 2 else if 13 < price then r2 - 3 / 5 else r2)
    else r2
  let r4 : ℚ :=
    if strContains operatorName "Tata" || strContains operatorName "Ather" then
      r3 + 1 / 5
    else r3
  round1 (max 1 (min 5 (r4 + noise)))

/-- One synthetic booking record, as `_simulate_user_bookings` assembles it
(the identifier, date and station-snapshot columns that no claim touches
are omitted). -/
structure Booking where
  available_slots_at_booking : ℕ
  price_paid_per_kwh : ℚ
  user_rating : ℚ
  booking_completed : ℕ
  wait_time_minutes : ℕ
deriving DecidableEq, Repr

/-- Assembling one booking: `booking_completed = 1 if available_slots > 0
else 0`, `wait_time_minutes` only when completed, rating from
`_calculate_user_rating`. -/
def simulateBookingRecord (priceSensitive : Bool) (operatorName : String)
    (distance : ℚ) (available_slots : ℕ) (price : ℚ) (waitMinutes : ℕ)
    (noise : ℚ) : Booking :=
  { available_slots_at_booking := available_slots
    price_paid_per_kwh := price
    user_rating := calculateUserRating priceSensitive operatorName distance
      available_slots price noise
    booking_completed := if 0 < available_slots then 1 else 0
    wait_time_minutes := if 0 < available_slots then waitMinutes else 0 }

/-! ## The model artifact and the serving pipeline (recommend.py) -/

/-- The user_preferences object of the serving request: both documented
fields are optional; `extra` stands for any further keys of the JSON
object, which no scoring path reads. -/
structure UserPrefs where
  battery_capacity_kwh : Option ℚ
  is_price_sensitive : Option ℚ
  extra : List (String × ℚ)
deriving DecidableEq, Repr

/-- The loaded model package: regressor and fitted scaler are opaque learned
functions (their internals live in the serialized artifact, outside this
repository); the label encoder is its list of fitted classes; plus the
stored feature-name list and the fitted per-feature means used by the
tester for NaN filling.  The metadata strings (training date, model type)
are not read by any scoring path and are omitted. -/
structure ModelPackage where
  predictFn : List PVal → PVal
  scaleFn : List PVal → List PVal
  scalerMeans : List ℚ
  encoderClasses : List String
  feature_names : List String

/-- sklearn LabelEncoder.transform on one value: the index of the class in
the fitted class list, or failure for an unseen category. -/
def classIndexAux (c : String) : List String → ℕ → Option ℕ
  | [], _ => none
  | k :: rest, i => if k = c then some i else classIndexAux c rest (i + 1)

/-- The fitted-class index of one category, none when unseen. -/
def classIndex (classes : List String) (c : String) : Option ℕ :=
  classIndexAux c classes 0

/-- LabelEncoder.transform on a whole column: a single vectorized call, so
one unseen category fails the entire column (ValueError), not just its
row. -/
def encTransform (classes : List String) : List String → Except String (List ℕ)
  | [] => .ok []
  | c :: rest =>
      match classIndex classes c with
      | none => .error c
      | some i =>
          match encTransform classes rest with
          | .error e => .error e
          | .ok is => .ok (i :: is)

/-- The engineered columns of recommend.py lines 82-85, over pandas float
semantics: `(available_slots / total_connections).fillna(0)`. -/
def recAvailabilityRatio (slots total : PVal) : PVal :=
  fillna0 (pdiv slots total)

/-- `(max_power_kw / price_per_kwh).replace([inf, -inf], 0).fillna(0)`. -/
def recPowerEfficiency (maxPower price : PVal) : PVal :=
  fillna0 (replaceInf0 (pdiv maxPower price))

/-- `(power_efficiency * availability_ratio).fillna(0)`. -/
def recValueScore (powerEff availRatio : PVal) : PVal :=
  fillna0 (pmul powerEff availRatio)

/-- One feature row of `predict_ratings`, as an association list in the
insertion order of the features DataFrame (columns 66-90 of recommend.py):
direct columns first, then the engineered ones, then the default time
features when the stored feature-name list expects them. -/
def buildFeatureRow (featureNames : List String) (battery priceSensitive : ℚ)
    (s : ServeStation) (slots : ℕ) (reliability : ℚ) (enc : ℕ) :
    List (String × PVal) :=
  [("distance_km", .num s.distance),
   ("available_slots", .num slots),
   ("total_connections", .num s.total_connections),
   ("max_power_kw", .num s.max_power_kw),
   ("price_per_kwh", .num s.usage_cost),
   ("reliability_score", .num reliability),
   ("charger_type_encoded", .num enc),
   ("battery_capacity", .num battery),
   ("is_price_sensitive", .num priceSensitive),
   ("distance_category", serveDistanceCategory s.distance),
   ("availability_ratio",
     recAvailabilityRatio (.num slots) (.num s.total_connections)),
   ("price_per_km", pmul (.num s.usage_cost) (.num s.distance)),
   ("power_efficiency",
     recPowerEfficiency (.num s.max_power_kw) (.num s.usage_cost)),
   ("value_score",
     recValueScore (recPowerEfficiency (.num s.max_power_kw) (.num s.usage_cost))
       (recAvailabilityRatio (.num slots) (.num s.total_connections)))]
  ++ (if "is_weekend" ∈ featureNames ∧ "hour_of_day" ∈ featureNames then
        [("is_weekend", .num 0), ("hour_of_day", .num 14)]
      else [])

/-- The feature rows for every station, zipped with its simulated slots and
reliability and its encoded category. -/
def buildRows (featureNames : List String) (battery priceSensitive : ℚ) :
    List ServeStation → List (ℕ × ℚ) → List ℕ → List (List (String × PVal))
  | s :: ss, (slots, rel) :: sims, e :: es =>
      buildFeatureRow featureNames battery priceSensitive s slots rel e
        :: buildRows featureNames battery priceSensitive ss sims es
  | _, _, _ => []

/-- Reordering one row to the stored feature-name list
(`features = features[feature_names]`); a missing column is a KeyError. -/
def reindexRow (row : List (String × PVal)) : List String → Option (List PVal)
  | [] => some []
  | n :: rest =>
      match row.lookup n with
      | none => none
      | some v =>
          match reindexRow row rest with
          | none => none
          | some vs => some (v :: vs)

/-- Reordering every row; any missing column fails the whole reindex. -/
def reindexAll (names : List String) :
    List (List (String × PVal)) → Option (List (List PVal))
  | [] => some []
  | r :: rs =>
      match reindexRow r names, reindexAll names rs with
      | some v, some vs => some (v :: vs)
      | _, _ => none

/-- `np.clip(x, lo, hi)` on one cell (NaN passes through). -/
def pclip (lo hi : ℚ) : PVal → PVal
  | .num q => .num (max lo (min hi q))
  | .nan => .nan
  | .pinf => .num hi
  | .ninf => .num lo

/-- `np.round(x, 2)` on one cell. -/
def pround2 : PVal → PVal
  | .num q => .num (round2 q)
  | v => v

/-- One output record of `predict_ratings`: the input station with the
simulated columns the function added and its predicted rating. -/
structure ScoredStation where
  station : ServeStation
  available_slots : ℕ
  reliability_score : ℚ
  predicted_rating : PVal
deriving DecidableEq, Repr

/-- Attaching each prediction to its station and simulated fields. -/
def attachRatings :
    List ServeStation → List (ℕ × ℚ) → List PVal → List ScoredStation
  | s :: ss, (slots, rel) :: sims, p :: ps =>
      ⟨s, slots, rel, p⟩ :: attachRatings ss sims ps
  | _, _, _ => []

/-- Descending order on predicted ratings with NaN sorted last, as
`sort_values('predicted_rating', ascending=False)` orders rows. -/
def ratingGE (a b : PVal) : Bool :=
  match a, b with
  | .nan, _ => false
  | _, .nan => true
  | .pinf, _ => true
  | _, .pinf => false
  | _, .ninf => true
  | .ninf, _ => false
  | .num x, .num y => y ≤ x

/-- Insertion step of the descending sort. -/
def insertScored (a : ScoredStation) : List ScoredStation → List ScoredStation
  | [] => [a]
  | b :: bs =>
      if ratingGE a.predicted_rating b.predicted_rating then a :: b :: bs
      else b :: insertScored a bs

/-- Sorting the scored stations by predicted rating, descending (one
concrete order; pandas uses an unstable quicksort whose tie order no claim
relies on). -/
def sortScored : List ScoredStation → List ScoredStation
  | [] => []
  | a :: rest => insertScored a (sortScored rest)

/-- `predict_ratings` (recommend.py lines 35-111): empty input short-cuts
to an empty list; the user-preference fields are read once with defaults
45 kWh and not-price-sensitive; the simulated columns are drawn after
seeding with 42; the category column is batch-encoded (an unseen category
raises, which the caller turns into an aborted request); a KeyError while
reordering to the stored feature-name list returns the empty result; each
reordered row is scaled, predicted, clipped to [1, 5] and rounded to 2
decimals; the output is sorted descending by predicted rating. -/
def predict_ratings (pkg : ModelPackage) (rng : RngState)
    (stations : List ServeStation) (prefs : UserPrefs) :
    Except String (List ScoredStation) :=
  if stations.isEmpty then .ok []
  else
    let battery : ℚ := prefs.battery_capacity_kwh.getD 45
    let priceSensitive : ℚ := prefs.is_price_sensitive.getD 0
    let sims := serveSimulate rng stations
    match encTransform pkg.encoderClasses (stations.map (·.charger_category)) with
    | .error c => .error c
    | .ok encs =>
        let rows := buildRows pkg.feature_names battery priceSensitive
          stations sims encs
        match reindexAll pkg.feature_names rows with
        | none => .ok []
        | some mat =>
            let preds := mat.map
              (fun row => pround2 (pclip 1 5 (pkg.predictFn (pkg.scaleFn row))))
            .ok (sortScored (attachRatings stations sims preds))

/-! ## Loading the artifact and the serving entry point
(recommend.py lines 23-33 and 113-144) -/

/-- What `joblib.load` does on the artifact path: the bundle, a missing
file, or any other exception while reading it. -/
inductive LoadOutcome where
  | loaded : ModelPackage → LoadOutcome
  | fileMissing : LoadOutcome
  | corrupt : String → LoadOutcome

/-- What `load_model` itself does: the bundle, or an exception escaping
it.  Both except branches intend to log and return None, but they call
`print_error(..., file=sys.stderr)` while `print_error` already passes
`file=sys.stderr` to print, so the handler itself raises TypeError
(duplicate keyword argument); the None return is unreachable on
failure. -/
inductive LoadResult where
  | ok : ModelPackage → LoadResult
  | raised : String → LoadResult

/-- `load_model` (recommend.py lines 23-33). -/
def load_model : LoadOutcome → LoadResult
  | .loaded pkg => .ok pkg
  | .fileMissing => .raised "TypeError: print got multiple values for file"
  | .corrupt _ => .raised "TypeError: print got multiple values for file"

/-- `load_trained_model` (trainModel.py lines 255-278), the loader the
tester uses: both failure branches print and return False, absorbing the
exception. -/
def load_trained_model : LoadOutcome → Bool
  | .loaded _ => true
  | .fileMissing => false
  | .corrupt _ => false

/-- The observable outcome of the serving script. -/
inductive MainResult where
  | printedJson : List ScoredStation → MainResult
  | exitError : ℕ → MainResult
deriving DecidableEq

/-- `main` of recommend.py on an already parsed request: an empty station
list prints an empty array and succeeds; a failed model load ends in exit
code 1 (the TypeError escaping `load_model` reaches the outer handler;
had None been returned, `sys.exit(1)` would follow anyway — there is no
rule-based path in this script); an exception escaping `predict_ratings`
is caught by the same outer handler, which also exits 1. -/
def recommendMain (stations : List ServeStation) (prefs : UserPrefs)
    (rng : RngState) (ld : LoadOutcome) : MainResult :=
  if stations.isEmpty then .printedJson []
  else
    match load_model ld with
    | .raised _ => .exitError 1
    | .ok pkg =>
        match predict_ratings pkg rng stations prefs with
        | .ok recs => .printedJson recs
        | .error _ => .exitError 1

/-! ## Training-side engineered features (trainModel.py,
prepare_training_features, lines 100-103): raw column divisions with no
fillna/replace guard. -/

/-- `available_slots_at_booking / total_connections_x`. -/
def trainAvailabilityRatio (slots total : PVal) : PVal :=
  pdiv slots total

/-- `max_power_kw_x / price_paid_per_kwh`. -/
def trainPowerEfficiency (maxPower price : PVal) : PVal :=
  pdiv maxPower price

/-- `(max_power_kw_x * (available_slots_at_booking / total_connections_x))
/ price_paid_per_kwh`. -/
def trainValueScore (maxPower slots total price : PVal) : PVal :=
  pdiv (pmul maxPower (pdiv slots total)) price

/-! ## The tester (modelTest.py): guarded per-station scoring and the
rule-based fallback -/

/-- The tester user-preference dictionary (keys `battery_capacity` and
`is_price_sensitive`, both optional). -/
structure TesterPrefs where
  battery_capacity : Option ℚ
  is_price_sensitive : Option ℚ
deriving DecidableEq, Repr

/-- A collected-station row as the tester reads it (columns of the
collector DataFrame after simulation). -/
structure CollectedStation where
  station_id : ℕ
  name : String
  operatorName : String
  distance_from_search_center : ℚ
  available_slots : ℕ
  total_connections : ℕ
  max_power_kw : ℚ
  simulated_price_per_kwh : ℚ
  simulated_avg_wait_minutes : ℕ
  reliability_score : ℚ
  charger_category : String
  is_operational : Bool
deriving DecidableEq, Repr

/-- modelTest.py lines 95-99: `power_efficiency = 0` when the price is
missing, NaN or zero, and when `max_power_kw` is NaN; otherwise the raw
quotient (a missing Python value behaves as the NaN case here). -/
def testPowerEfficiency (maxPower price : PVal) : PVal :=
  if price = .nan ∨ price = .num 0 then .num 0
  else if maxPower = .nan then .num 0
  else pdiv maxPower price

/-- modelTest.py lines 100-104: `value_score = 0` under the same degenerate
price condition and when `total_connections` is missing/NaN/zero; otherwise
`(max_power_kw * availability_ratio) / price`. -/
def testValueScore (maxPower slots total price : PVal) : PVal :=
  if price = .nan ∨ price = .num 0 then .num 0
  else if total = .nan ∨ total = .num 0 then .num 0
  else
    let ratio := if slots = .nan ∨ total = .nan then .num 0 else pdiv slots total
    pdiv (pmul maxPower ratio) price

/-- modelTest.py line 119: the availability ratio guarded against NaN
operands and a zero denominator. -/
def testAvailabilityRatio (slots total : PVal) : PVal :=
  if slots = .nan ∨ total = .nan ∨ total = .num 0 then .num 0
  else pdiv slots total

/-- The feature dictionary one tester iteration builds (lines 108-129),
in insertion order, including the default time features when the stored
list was trained with them. -/
def testerFeatureData (featureNames : List String) (prefs : TesterPrefs)
    (s : CollectedStation) (enc : ℕ) : List (String × PVal) :=
  [("distance_km", .num s.distance_from_search_center),
   ("distance_category",
     .num (if s.distance_from_search_center < 5 then 1
       else if s.distance_from_search_center < 15 then 2 else 3)),
   ("available_slots", .num s.available_slots),
   ("total_connections", .num s.total_connections),
   ("max_power_kw", .num s.max_power_kw),
   ("price_per_kwh", .num s.simulated_price_per_kwh),
   ("reliability_score", .num s.reliability_score),
   ("charger_type_encoded", .num enc),
   ("battery_capacity", .num (prefs.battery_capacity.getD 45)),
   ("is_price_sensitive", .num (prefs.is_price_sensitive.getD 0)),
   ("availability_ratio",
     testAvailabilityRatio (.num s.available_slots) (.num s.total_connections)),
   ("price_per_km",
     .num (s.simulated_price_per_kwh * s.distance_from_search_center)),
   ("power_efficiency",
     testPowerEfficiency (.num s.max_power_kw) (.num s.simulated_price_per_kwh)),
   ("value_score",
     testValueScore (.num s.max_power_kw) (.num s.available_slots)
       (.num s.total_connections) (.num s.simulated_price_per_kwh))]
  ++ (if "is_weekend" ∈ featureNames ∧ "hour_of_day" ∈ featureNames then
        [("is_weekend", .num 0), ("hour_of_day", .num 12)]
      else [])

/-- Reordering with default fill (lines 135-140): a stored feature name
missing from the dictionary becomes a column of zeros, so this reindex
never fails. -/
def testerReorderRow (row : List (String × PVal)) (names : List String) :
    List PVal :=
  names.map (fun n => (row.lookup n).getD (.num 0))

/-- Remaining-NaN fill (lines 144-147): per-feature scaler means when the
fitted mean vector matches the stored list, else zeros. -/
def testerFillna (pkg : ModelPackage) (row : List PVal) : List PVal :=
  if pkg.scalerMeans.length = pkg.feature_names.length then
    (row.zip pkg.scalerMeans).map (fun p => if p.1 = .nan then .num p.2 else p.1)
  else row.map fillna0

/-- Python `min(a, v)` with a float literal first argument. -/
def pyMinQ (a : ℚ) : PVal → PVal
  | .num q => if q < a then .num q else .num a
  | .nan => .num a
  | .pinf => .num a
  | .ninf => .ninf

/-- Python `max(a, v)` with a float literal first argument. -/
def pyMaxQ (a : ℚ) : PVal → PVal
  | .num q => if a < q then .num q else .num a
  | .nan => .num a
  | .pinf => .pinf
  | .ninf => .num a

/-- One recommendation record the tester emits (lines 158-170). -/
structure TesterRec where
  station_id : ℕ
  name : String
  operatorName : String
  predicted_rating : PVal
  distance_km : ℚ
  available_slots : ℕ
  total_connections : ℕ
  price_per_kwh : ℚ
  charger_type : String
  max_power_kw : ℚ
  estimated_wait : ℕ
deriving DecidableEq, Repr

/-- The successful body of one tester iteration, after the category
encoded without error. -/
def testerRec (pkg : ModelPackage) (prefs : TesterPrefs)
    (s : CollectedStation) (enc : ℕ) : TesterRec :=
  let row := testerFillna pkg
    (testerReorderRow (testerFeatureData pkg.feature_names prefs s enc)
      pkg.feature_names)
  let rating := pyMaxQ 1 (pyMinQ 5 (pkg.predictFn (pkg.scaleFn row)))
  { station_id := s.station_id
    name := s.name
    operatorName := s.operatorName
    predicted_rating := pround2 rating
    distance_km := round2 s.distance_from_search_center
    available_slots := s.available_slots
    total_connections := s.total_connections
    price_per_kwh := s.simulated_price_per_kwh
    charger_type := s.charger_category
    max_power_kw := s.max_power_kw
    estimated_wait := s.simulated_avg_wait_minutes }

/-- One iteration of the tester loop (lines 67-176): the whole body runs
under a per-station try/except, and the one failure a typed record can
produce is the encoder raising on an unseen category, in which case the
station is dropped (logged) and the loop continues. -/
def testerScoreStation (pkg : ModelPackage) (prefs : TesterPrefs)
    (s : CollectedStation) : Option TesterRec :=
  match classIndex pkg.encoderClasses s.charger_category with
  | none => none
  | some enc => some (testerRec pkg prefs s enc)

/-- All stations the tester loop scores, in input order. -/
def getMLRecommendationsAll (pkg : ModelPackage) (prefs : TesterPrefs)
    (stations : List CollectedStation) : List TesterRec :=
  stations.filterMap (testerScoreStation pkg prefs)

/-- Descending insertion by predicted rating for tester records. -/
def insertTesterRec (a : TesterRec) : List TesterRec → List TesterRec
  | [] => [a]
  | b :: bs =>
      if ratingGE a.predicted_rating b.predicted_rating then a :: b :: bs
      else b :: insertTesterRec a bs

/-- Descending sort of tester records by predicted rating. -/
def sortTesterRecs : List TesterRec → List TesterRec
  | [] => []
  | a :: rest => insertTesterRec a (sortTesterRecs rest)

/-- `_get_ml_recommendations`: score every station, keep the top 3 by
predicted rating (`nlargest(3, 'predicted_rating')`). -/
def getMLRecommendations (pkg : ModelPackage) (prefs : TesterPrefs)
    (stations : List CollectedStation) : List TesterRec :=
  (sortTesterRecs (getMLRecommendationsAll pkg prefs stations)).take 3

/-- The rule-based score of `_get_simple_recommendations` (lines 195-209). -/
def simpleScore (prefs : TesterPrefs) (s : CollectedStation) : ℚ :=
  30 / (s.distance_from_search_center + 1)
    + 25 * s.available_slots
    + 20 / (s.simulated_price_per_kwh + 1)
    + 15 * (s.max_power_kw / 50)
    + 10 * (if s.is_operational then 1 else 0)
    + (if prefs.is_price_sensitive.getD 0 ≠ 0 then
        15 / (s.simulated_price_per_kwh + 1) else 0)
    + (if 50 < prefs.battery_capacity.getD 40 ∧
          (s.charger_category = "fast" ∨ s.charger_category = "superfast") then
        10 else 0)

/-- Descending insertion by rule score. -/
def insertByScore (prefs : TesterPrefs) (a : CollectedStation) :
    List CollectedStation → List CollectedStation
  | [] => [a]
  | b :: bs =>
      if simpleScore prefs b < simpleScore prefs a then a :: b :: bs
      else b :: insertByScore prefs a bs

/-- Descending sort by rule score. -/
def sortByScore (prefs : TesterPrefs) :
    List CollectedStation → List CollectedStation
  | [] => []
  | a :: rest => insertByScore prefs a (sortByScore prefs rest)

/-- `_get_simple_recommendations`: the top 3 stations by the closed-form
rule score (`nlargest(3, 'score')`). -/
def getSimpleRecommendations (prefs : TesterPrefs)
    (stations : List CollectedStation) : List CollectedStation :=
  (sortByScore prefs stations).take 3

/-- The outcome of one tester recommendation request, tagged by which
scorer produced it. -/
inductive TesterOutcome where
  | ml : List TesterRec → TesterOutcome
  | ruleBased : List CollectedStation → TesterOutcome
deriving DecidableEq

/-- `test_recommendations_for_location` lines 50-53: when the model failed
to load (`model_loaded` false) the tester falls back to the rule-based
scorer; otherwise it uses the ML path. -/
def testerRecommendations (modelLoaded : Bool) (pkg : ModelPackage)
    (prefs : TesterPrefs) (stations : List CollectedStation) : TesterOutcome :=
  if modelLoaded then .ml (getMLRecommendations pkg prefs stations)
  else .ruleBased (getSimpleRecommendations prefs stations)

/-! ## Shared helper lemmas -/

/-- Division of finite cells with a nonzero denominator is finite. -/
lemma pdiv_num_of_ne (a b : ℚ) (hb : b ≠ 0) :
    pdiv (.num a) (.num b) = .num (a / b) := by
  simp [pdiv, hb]

/-- The recommend-path availability ratio of simulated slot counts is a
finite cell, zero when there are no connections. -/
lemma recAvailabilityRatio_cases (slots tc : ℕ) (h : slots ≤ tc) :
    ∃ q : ℚ, recAvailabilityRatio (.num slots) (.num tc) = .num q ∧
      (tc = 0 → q = 0) := by
  rcases Nat.eq_zero_or_pos tc with h0 | hpos
  · subst h0
    have hs : slots = 0 := Nat.le_zero.mp h
    subst hs
    exact ⟨0, by simp [recAvailabilityRatio, pdiv, fillna0], fun _ => rfl⟩
  · have htc : ((tc : ℚ)) ≠ 0 := by
      exact_mod_cast Nat.pos_iff_ne_zero.mp hpos
    refine ⟨(slots : ℚ) / tc, ?_, fun h0 => absurd h0 (Nat.pos_iff_ne_zero.mp hpos)⟩
    simp [recAvailabilityRatio, pdiv_num_of_ne _ _ htc, fillna0]

/-- The recommend-path power efficiency of finite cells is always a finite
cell, zero when the price is zero. -/
lemma recPowerEfficiency_cases (maxp price : ℚ) :
    ∃ q : ℚ, recPowerEfficiency (.num maxp) (.num price) = .num q ∧
      (price = 0 → q = 0) := by
  by_cases hp : price = 0
  · subst hp
    rcases lt_trichotomy maxp 0 with hm | hm | hm
    · refine ⟨0, ?_, fun _ => rfl⟩
      simp [recPowerEfficiency, pdiv, not_lt.mpr hm.le, hm.ne, replaceInf0, fillna0]
    · subst hm
      exact ⟨0, by simp [recPowerEfficiency, pdiv, replaceInf0, fillna0], fun _ => rfl⟩
    · refine ⟨0, ?_, fun _ => rfl⟩
      simp [recPowerEfficiency, pdiv, hm, hm.ne.symm, replaceInf0, fillna0]
  · refine ⟨maxp / price, ?_, fun h0 => absurd h0 hp⟩
    simp [recPowerEfficiency, pdiv_num_of_ne _ _ hp, replaceInf0, fillna0]

/-- C1: the three distance_category implementations disagree: a 3 km
distance is labelled 0.0 by the training-time pd.cut (4 bins, labels 0-3),
but 1.0 by the serving-time pd.cut (3 bins, labels 1-3) and 1 by the
single-pair prediction path, so training and inference do not share one
bucket labelling. -/
theorem C1_distance_category_divergence :
    trainDistanceCategory 3 = PVal.num 0 ∧
    serveDistanceCategory 3 = PVal.num 1 ∧
    pairDistanceCategory 3 = 1 ∧
    PVal.num 0 ≠ PVal.num 1 := by
  refine ⟨?_, ?_, ?_, ?_⟩
  · norm_num [trainDistanceCategory]
  · norm_num [serveDistanceCategory]
  · norm_num [pairDistanceCategory]
  · intro h
    injection h with h0
    exact absurd h0 (by norm_num)

/-- C7: charger_category is the pure threshold function of max_power_kw:
49.9 kW is fast, 50.0 kW superfast, 21.9 kW slow, 22.0 kW fast; and every
station the normalizer emits carries exactly the category this function
assigns to its max_power_kw. -/
theorem C7_charger_category_thresholds :
    (chargerCategoryOf (499 / 10) = "fast" ∧
     chargerCategoryOf 50 = "superfast" ∧
     chargerCategoryOf (219 / 10) = "slow" ∧
     chargerCategoryOf 22 = "fast")
    ∧ (∀ (s : RawStation) (st : Station), processRawStation s = some st →
        st.charger_category = chargerCategoryOf st.max_power_kw) := by
  constructor
  · refine ⟨?_, ?_, ?_, ?_⟩ <;> norm_num [chargerCategoryOf]
  · intro s st h
    unfold processRawStation at h
    split at h
    · dsimp only at h
      injection h with h2
      subst h2
      rfl
    · exact Option.noConfusion h

/-- C3: the claim fails on the training path: prepare_training_features
divides without guards, so a zero price yields an infinite
power_efficiency (pandas emits inf, not 0). -/
theorem C3_train_power_efficiency_infinite :
    (trainPowerEfficiency (PVal.num 7) (PVal.num 0)).isFinite = false ∧
    trainPowerEfficiency (PVal.num 7) (PVal.num 0) ≠ PVal.num 0 := by
  constructor
  · norm_num [trainPowerEfficiency, pdiv, PVal.isFinite]
  · norm_num [trainPowerEfficiency, pdiv]
    decide

/-- C3 (amended): on the serving path (recommend.py) and the tester path
(modelTest.py) the derived features availability_ratio, power_efficiency
and value_score are finite cells for all finite inputs with simulated
slots at most total_connections, and the degenerate inputs (zero
total_connections, zero price) produce 0 rather than an error. -/
theorem C3_guarded_paths_finite :
    ∀ (tc slots : ℕ), slots ≤ tc → ∀ (maxp price : ℚ), 0 ≤ maxp → 0 ≤ price →
      ((recAvailabilityRatio (.num slots) (.num tc)).isFinite = true
        ∧ (recPowerEfficiency (.num maxp) (.num price)).isFinite = true
        ∧ (recValueScore (recPowerEfficiency (.num maxp) (.num price))
            (recAvailabilityRatio (.num slots) (.num tc))).isFinite = true
        ∧ (tc = 0 → recAvailabilityRatio (.num slots) (.num tc) = .num 0)
        ∧ (price = 0 → recPowerEfficiency (.num maxp) (.num price) = .num 0
            ∧ recValueScore (recPowerEfficiency (.num maxp) (.num price))
                (recAvailabilityRatio (.num slots) (.num tc)) = .num 0))
      ∧ ((testAvailabilityRatio (.num slots) (.num tc)).isFinite = true
        ∧ (testPowerEfficiency (.num maxp) (.num price)).isFinite = true
        ∧ (testValueScore (.num maxp) (.num slots) (.num tc)
            (.num price)).isFinite = true
        ∧ (tc = 0 → testAvailabilityRatio (.num slots) (.num tc) = .num 0
            ∧ testValueScore (.num maxp) (.num slots) (.num tc)
                (.num price) = .num 0)
        ∧ (price = 0 → testPowerEfficiency (.num maxp) (.num price) = .num 0
            ∧ testValueScore (.num maxp) (.num slots) (.num tc)
                (.num price) = .num 0)) := by
  intro tc slots hst maxp price _hm _hp
  obtain ⟨qr, hqr, hqr0⟩ := recAvailabilityRatio_cases slots tc hst
  obtain ⟨qe, hqe, hqe0⟩ := recPowerEfficiency_cases maxp price
  constructor
  · refine ⟨?_, ?_, ?_, ?_, ?_⟩
    · rw [hqr]; rfl
    · rw [hqe]; rfl
    · rw [hqr, hqe]
      simp [recValueScore, pmul, fillna0, PVal.isFinite]
    · intro h0
      rw [hqr, hqr0 h0]
    · intro hp0
      refine ⟨by rw [hqe, hqe0 hp0], ?_⟩
      rw [hqr, hqe, hqe0 hp0]
      simp [recValueScore, pmul, fillna0]
  · refine ⟨?_, ?_, ?_, ?_, ?_⟩
    · by_cases h0 : ((tc : ℚ)) = 0
      · simp [testAvailabilityRatio, h0, PVal.isFinite]
      · simp [testAvailabilityRatio, h0, pdiv_num_of_ne _ _ h0, PVal.isFinite]
    · by_cases hp0 : price = 0
      · simp [testPowerEfficiency, hp0, PVal.isFinite]
      · simp [testPowerEfficiency, hp0, pdiv_num_of_ne _ _ hp0, PVal.isFinite]
    · by_cases hp0 : price = 0
      · simp [testValueScore, hp0, PVal.isFinite]
      · by_cases h0 : ((tc : ℚ)) = 0
        · simp [testValueScore, hp0, h0, PVal.isFinite]
        · simp [testValueScore, hp0, h0, pdiv_num_of_ne _ _ h0, pmul,
            pdiv_num_of_ne _ _ hp0, PVal.isFinite]
    · intro h0
      have h0q : ((tc : ℚ)) = 0 := by exact_mod_cast congrArg (Nat.cast : ℕ → ℚ) h0
      constructor
      · simp [testAvailabilityRatio, h0q]
      · by_cases hp0 : price = 0
        · simp [testValueScore, hp0]
        · simp [testValueScore, hp0, h0q]
    · intro hp0
      exact ⟨by simp [testPowerEfficiency, hp0], by simp [testValueScore, hp0]⟩

/-- C3 (witness): the amended statement at total_connections = 0, slots
= 0, max power 7 kW, price 0. -/
theorem C3_guarded_paths_finite_witness :
    recPowerEfficiency (PVal.num 7) (PVal.num 0) = PVal.num 0 ∧
    testPowerEfficiency (PVal.num 7) (PVal.num 0) = PVal.num 0 := by
  have h := C3_guarded_paths_finite 0 0 (le_refl 0) 7 0 (by norm_num) (le_refl 0)
  exact ⟨(h.1.2.2.2.2 rfl).1, (h.2.2.2.2.2 rfl).1⟩

/-- C6 (amended): the normalizer skips a raw record exactly when its
latitude or longitude is absent or equal to 0 (Python truthiness of the
coordinate fields); every record whose coordinates are both present and
nonzero is normalized. -/
theorem C6_skip_condition :
    ∀ s : RawStation,
      (processRawStation s = none ↔
        s.latitude = none ∨ s.latitude = some 0 ∨
        s.longitude = none ∨ s.longitude = some 0) := by
  intro s
  rcases s with ⟨la, lo, conns, sid, op, oper⟩
  cases la with
  | none => simp [processRawStation, pyTruthy]
  | some qa =>
      cases lo with
      | none => simp [processRawStation, pyTruthy]
      | some qb =>
          by_cases hqa : qa = 0 <;> by_cases hqb : qb = 0 <;>
            simp [processRawStation, pyTruthy, hqa, hqb]

/-- C6 (counterexample): a record carrying both coordinates, with latitude
exactly 0 (a point on the equator), is skipped by the normalizer. -/
theorem C6_zero_coordinate_skipped :
    processRawStation ⟨some 0, some 10, [some 7], 12, "Tata Power", true⟩ = none ∧
    (Option.isSome (some (0 : ℚ)) = true ∧ Option.isSome (some (10 : ℚ)) = true) := by
  refine ⟨?_, rfl, rfl⟩
  simp [processRawStation, pyTruthy]

/-- Rounding a clamped value to one decimal keeps it in [1, 5] and on the
tenths grid. -/
lemma round1_clamp (t : ℚ) :
    1 ≤ round1 (max 1 (min 5 t)) ∧ round1 (max 1 (min 5 t)) ≤ 5 ∧
      ∃ n : ℤ, round1 (max 1 (min 5 t)) = (n : ℚ) / 10 := by
  set y : ℚ := max 1 (min 5 t) with hy
  have h1 : (1 : ℚ) ≤ y := le_max_left _ _
  have h5 : y ≤ 5 := max_le (by norm_num) (min_le_left _ _)
  have hpow : ((10 : ℚ) ^ 1) = 10 := by norm_num
  have hlo : (10 : ℤ) ≤ round (y * 10 ^ 1) := by
    rw [hpow, round_eq, Int.le_floor]
    push_cast
    linarith
  have hhi : round (y * 10 ^ 1) ≤ 50 := by
    rw [hpow, round_eq]
    have : ⌊y * 10 + 1 / 2⌋ < 51 := by
      rw [Int.floor_lt]
      push_cast
      linarith
    omega
  refine ⟨?_, ?_, ⟨round (y * 10 ^ 1), rfl⟩⟩
  · rw [round1, roundTo, hpow, le_div_iff₀ (by norm_num : (0:ℚ) < 10)]
    calc (1 : ℚ) * 10 = ((10 : ℤ) : ℚ) := by norm_num
    _ ≤ (round (y * 10 ^ 1) : ℚ) := by exact_mod_cast hlo
    _ = (round (y * 10) : ℚ) := by rw [hpow]
  · rw [round1, roundTo, hpow, div_le_iff₀ (by norm_num : (0:ℚ) < 10)]
    calc (round (y * 10) : ℚ) = (round (y * 10 ^ 1) : ℚ) := by rw [hpow]
    _ ≤ ((50 : ℤ) : ℚ) := by exact_mod_cast hhi
    _ = 5 * 10 := by norm_num

/-- C8: every booking record the interaction simulator produces satisfies
the record invariant: booking_completed is 1 exactly when slots were
available, and the user rating is clamped to [1, 5] and rounded to one
decimal. -/
theorem C8_booking_invariant :
    ∀ (ps : Bool) (op : String) (d : ℚ) (slots : ℕ) (price : ℚ) (wait : ℕ)
      (noise : ℚ),
      ((simulateBookingRecord ps op d slots price wait noise).booking_completed = 1
        ↔ 0 < (simulateBookingRecord ps op d slots price wait
            noise).available_slots_at_booking)
      ∧ 1 ≤ (simulateBookingRecord ps op d slots price wait noise).user_rating
      ∧ (simulateBookingRecord ps op d slots price wait noise).user_rating ≤ 5
      ∧ ∃ n : ℤ, (simulateBookingRecord ps op d slots price wait
          noise).user_rating = (n : ℚ) / 10 := by
  intro ps op d slots price wait noise
  refine ⟨?_, ?_, ?_, ?_⟩
  · simp only [simulateBookingRecord]
    by_cases h : 0 < slots <;> simp [h]
  · exact (round1_clamp _).1
  · exact (round1_clamp _).2.1
  · exact (round1_clamp _).2.2

/-- C9 (amended): the haversine distance is symmetric in its two
coordinate pairs, and the distance from any point to itself is zero. -/
theorem C9_distance_symm_and_self :
    (∀ lat1 lng1 lat2 lng2 : ℝ,
      calcDistance lat1 lng1 lat2 lng2 = calcDistance lat2 lng2 lat1 lng1)
    ∧ (∀ lat lng : ℝ, calcDistance lat lng lat lng = 0) := by
  constructor
  · intro lat1 lng1 lat2 lng2
    have hs : ∀ x y : ℝ, Real.sin ((x - y) / 2) ^ 2 = Real.sin ((y - x) / 2) ^ 2 := by
      intro x y
      rw [show (x - y) / 2 = -((y - x) / 2) by ring, Real.sin_neg]
      ring
    unfold calcDistance
    rw [hs (lat2 * Real.pi / 180) (lat1 * Real.pi / 180),
      hs (lng2 * Real.pi / 180) (lng1 * Real.pi / 180),
      mul_comm (Real.cos (lat1 * Real.pi / 180)) (Real.cos (lat2 * Real.pi / 180))]
  · intro lat lng
    simp [calcDistance]

/-- C9 (counterexample): two distinct coordinate pairs at zero haversine
distance: the north pole written with two different longitudes.  The
distance is 0 although the pairs differ, so zero distance does not imply
equal coordinates. -/
theorem C9_zero_at_distinct_coordinates :
    calcDistance 90 0 90 10 = 0 ∧
    ¬(((90 : ℝ), (0 : ℝ)) = ((90 : ℝ), (10 : ℝ))) := by
  constructor
  · have h : (90 : ℝ) * Real.pi / 180 = Real.pi / 2 := by ring
    simp only [calcDistance, h, sub_self]
    simp [Real.cos_pi_div_two]
  · intro h
    have h2 := congrArg Prod.snd h
    norm_num at h2

/-- C2 (amended): both simulators are deterministic under the fixed seed:
because np.random.seed(42) is applied immediately before the batch, the
simulated columns do not depend on the random-generator state the call
inherits, so repeated invocations over the same station set give identical
columns. -/
theorem C2_simulators_deterministic :
    (∀ (mt : ℕ → ℕ → ℚ) (s1 p1 s2 p2 : ℕ) (stations : List StationRec),
      addSimulatedRealtimeData ⟨mt, s1, p1⟩ stations =
        addSimulatedRealtimeData ⟨mt, s2, p2⟩ stations)
    ∧ (∀ (mt : ℕ → ℕ → ℚ) (s1 p1 s2 p2 : ℕ) (stations : List ServeStation),
      serveSimulate ⟨mt, s1, p1⟩ stations = serveSimulate ⟨mt, s2, p2⟩ stations) :=
  ⟨fun _ _ _ _ _ _ => rfl, fun _ _ _ _ _ _ => rfl⟩

/-- C2 (counterexample): the training-side and serving-side simulators are
not bitwise-identical on the same station set.  With the same seeded
stream (here: every draw 0) and one station with 2 connections, superfast
and operated by Tata Power, the training simulator puts its reliability at
0.85 (major-operator band [0.85, 0.98]), while the serving simulation puts
it at 0.75 (one fixed band [0.75, 0.95) for every station). -/
theorem C2_train_serve_reliability_differs :
    ((addSimulatedRealtimeData ⟨fun _ _ => 0, 0, 0⟩
        [⟨101, 2, "superfast", "Tata Power"⟩]).map
        (fun f => f.reliability_score)) = [17 / 20]
    ∧ ((serveSimulate ⟨fun _ _ => 0, 0, 0⟩
        [⟨1, 2, 60, 12, "superfast"⟩]).map (fun p => p.2)) = [3 / 4]
    ∧ ((17 : ℚ) / 20) ≠ 3 / 4 := by
  have hmaj : isMajorOperator "Tata Power" = true := by decide
  refine ⟨?_, ?_, by norm_num⟩
  · simp only [addSimulatedRealtimeData, npSeed, simRows, List.map, hmaj, if_true]
    norm_num [round2, roundTo, uniformFrom, round_eq]
  · simp only [serveSimulate, npSeed, serveSimRows, List.map]
    norm_num [uniformFrom]

/-- C4 (amended): a missing or corrupt artifact is recoverable for the
tester caller: its loader absorbs both failures (returns False), after
which it falls back to rule-based scoring; the serving-script caller does
not fall back but ends in a clean exit with code 1 for both failures (see
the counterexample). -/
theorem C4_load_failure_recoverable :
    (load_trained_model .fileMissing = false)
    ∧ (∀ e, load_trained_model (.corrupt e) = false)
    ∧ (∀ (ld : LoadOutcome) (pkg : ModelPackage) (prefs : TesterPrefs)
        (stations : List CollectedStation),
      ld = .fileMissing ∨ (∃ e, ld = .corrupt e) →
      testerRecommendations (load_trained_model ld) pkg prefs stations =
        .ruleBased (getSimpleRecommendations prefs stations))
    ∧ (∀ (s : ServeStation) (rest : List ServeStation) (prefs : UserPrefs)
        (rng : RngState) (e : String),
      recommendMain (s :: rest) prefs rng .fileMissing = .exitError 1
      ∧ recommendMain (s :: rest) prefs rng (.corrupt e) = .exitError 1) := by
  refine ⟨rfl, fun _ => rfl, ?_, fun _ _ _ _ _ => ⟨rfl, rfl⟩⟩
  rintro ld pkg prefs stations (rfl | ⟨e, rfl⟩) <;> rfl

/-- C4 (counterexample): the serving-script caller does not fall back to
rule-based scoring: with a nonempty candidate list and a missing artifact
file, main exits with code 1 and prints no result. -/
theorem C4_recommend_main_exits_on_load_failure :
    recommendMain [⟨2, 1, 50, 12, "superfast"⟩] ⟨none, none, []⟩
        ⟨fun _ _ => 0, 0, 0⟩ .fileMissing = .exitError 1
    ∧ (∀ recs, MainResult.exitError 1 ≠ MainResult.printedJson recs) := by
  refine ⟨rfl, ?_⟩
  intro recs h
  exact MainResult.noConfusion h

/-- C5 (counterexample): in the serving script the categorical encoding is
one vectorized transform over the whole column, so a single station with
an unseen charger category ("ultra") aborts the entire batch: the valid
station is not scored and no result list is produced. -/
theorem C5_batch_abort_on_unseen_category :
    predict_ratings
        ⟨fun _ => PVal.num 3, fun r => r, [],
          ["fast", "slow", "superfast"],
          ["distance_km", "distance_category", "available_slots",
           "total_connections", "max_power_kw", "price_per_kwh",
           "reliability_score", "charger_type_encoded", "battery_capacity",
           "is_price_sensitive", "availability_ratio", "price_per_km",
           "power_efficiency", "value_score"]⟩
        ⟨fun _ _ => 0, 0, 0⟩
        [⟨2, 3, 50, 12, "fast"⟩, ⟨5, 2, 7, 8, "ultra"⟩]
        ⟨none, none, []⟩
      = .error "ultra"
    ∧ (∀ l : List ScoredStation,
        (Except.error "ultra" : Except String (List ScoredStation)) ≠ .ok l) := by
  refine ⟨?_, ?_⟩
  · simp [predict_ratings, serveSimulate, npSeed, serveSimRows, encTransform,
      classIndex, classIndexAux]
  · intro l h
    exact Except.noConfusion h

/-- C5 (amended): the tester ML path scores stations one at a time under a
per-station handler: exactly the stations whose charger category the
fitted encoder knows are scored, in order, and a station with an unseen
category is dropped without aborting the rest of the batch. -/
theorem C5_tester_drops_only_bad_stations :
    ∀ (pkg : ModelPackage) (prefs : TesterPrefs)
      (stations : List CollectedStation),
      (getMLRecommendationsAll pkg prefs stations).map (fun r => r.station_id) =
        (stations.filter (fun s =>
          (classIndex pkg.encoderClasses s.charger_category).isSome)).map
          (fun s => s.station_id) := by
  intro pkg prefs stations
  induction stations with
  | nil => rfl
  | cons s rest ih =>
      unfold getMLRecommendationsAll at ih ⊢
      rw [List.filterMap_cons, List.filter_cons]
      cases h : classIndex pkg.encoderClasses s.charger_category with
      | none => simpa [testerScoreStation, h] using ih
      | some e => simpa [testerScoreStation, testerRec, h] using ih

/-- C10: at the serving boundary the predicted ratings read the
user_preferences object only through battery_capacity_kwh (default 45) and
is_price_sensitive (default 0): omitting either field gives the same
output as passing its default explicitly, and any two preference objects
agreeing on the two fields produce identical output whatever else they
carry. -/
theorem C10_prefs_defaults_and_dependence :
    (∀ (pkg : ModelPackage) (rng : RngState) (stations : List ServeStation)
        (ps : Option ℚ) (extra : List (String × ℚ)),
      predict_ratings pkg rng stations ⟨none, ps, extra⟩ =
        predict_ratings pkg rng stations ⟨some 45, ps, extra⟩)
    ∧ (∀ (pkg : ModelPackage) (rng : RngState) (stations : List ServeStation)
        (b : Option ℚ) (extra : List (String × ℚ)),
      predict_ratings pkg rng stations ⟨b, none, extra⟩ =
        predict_ratings pkg rng stations ⟨b, some 0, extra⟩)
    ∧ (∀ (pkg : ModelPackage) (rng : RngState) (stations : List ServeStation)
        (p1 p2 : UserPrefs),
      p1.battery_capacity_kwh = p2.battery_capacity_kwh →
      p1.is_price_sensitive = p2.is_price_sensitive →
      predict_ratings pkg rng stations p1 = predict_ratings pkg rng stations p2) := by
  refine ⟨fun _ _ _ _ _ => rfl, fun _ _ _ _ _ => rfl, ?_⟩
  intro pkg rng stations p1 p2 h1 h2
  unfold predict_ratings
  rw [h1, h2]

end EVRec
